import Mathlib

/-!
Verification of the WaveFlow Studio SDK client gateway
(`waveflow_studio_sdk/client.py`) against its natural-language
specification.  The Python code is shallowly embedded: JSON values become an
inductive type, the single HTTP call a method makes becomes an explicit
`TransportResult` input, and each client method becomes a pure Lean function
from its inputs (and the gateway state) to the value it returns (or the
exception it raises) together with the updated state.
-/

namespace WaveFlow

/-- A decoded JSON value, as produced by `response.json()` in Python.
Numbers are modelled as integers (the fields these claims inspect, such as
`status_code`, are integral). Objects are association lists with distinct
keys in source order. -/
inductive JSON where
  | null : JSON
  | bool : Bool → JSON
  | num : Int → JSON
  | str : String → JSON
  | arr : List JSON → JSON
  | obj : List (String × JSON) → JSON
deriving Repr

/-- Python truthiness (`bool(x)`) on JSON-shaped values: `None`, `False`,
`0`, `""`, `[]` and `{}` are falsy, everything else truthy. -/
def truthy : JSON → Bool
  | .null => false
  | .bool b => b
  | .num n => n != 0
  | .str s => s != ""
  | .arr xs => !xs.isEmpty
  | .obj fs => !fs.isEmpty

/-- `d[k]` lookup on a Python dict (association list). -/
def dictGet (fs : List (String × JSON)) (k : String) : Option JSON :=
  match fs.find? (fun p => p.1 == k) with
  | some p => some p.2
  | none => none

/-- `d.get(k, default)` on a Python dict: the stored value when the key is
present (even if that value is `None`), else the default. -/
def dictGetD (fs : List (String × JSON)) (k : String) (dflt : JSON) : JSON :=
  (dictGet fs k).getD dflt

/-- Python's `x == 200` on a JSON-shaped value: true exactly for the
number 200 (no other JSON shape compares equal to an int in Python). -/
def eqNum200 : JSON → Bool
  | .num n => n == 200
  | _ => false

/-- The body of an HTTP response, as seen through `response.json()`:
either it decodes to a JSON value or decoding raises
`requests.exceptions.JSONDecodeError`. -/
inductive RespBody where
  | decodeFail : RespBody
  | json : JSON → RespBody
deriving Repr

/-- The outcome of the single HTTP call a method performs: either the
transport raises `requests.RequestException` (connection failure etc.), or a
response arrives with a status code and a body. -/
inductive TransportResult where
  | exc : TransportResult
  | resp : Nat → RespBody → TransportResult
deriving Repr

/-- `requests.Response.raise_for_status` raises `HTTPError` exactly for
4xx/5xx status codes; `Response.ok` is its negation. -/
def raisesForStatus (status : Nat) : Bool :=
  400 ≤ status && status < 600

/-- Python's `api_key.startswith("AAAI")`: the first four characters of
the string are `A`, `A`, `A`, `I`. -/
def startsWithAAAI (s : String) : Bool :=
  match s.data with
  | 'A' :: 'A' :: 'A' :: 'I' :: _ => true
  | _ => false

/-- The ways `WaveFlowStudio._validate_api_key` can finish. -/
inductive ValidateOutcome where
  | ok : ValidateOutcome
  | invalidKey : ValidateOutcome
  | attrError : ValidateOutcome
deriving Repr, DecidableEq

/-- `WaveFlowStudio._validate_api_key`, paired with the number of GET
requests it issues.  An `AAAI`-prefixed key returns at once.  Otherwise one
GET to `/user` is made; `requests.RequestException` (which includes the
`JSONDecodeError` raised by `response.json()`) is caught and converted to
`InvalidAPIKeyError`.  A body that decodes but is not a dict makes
`res.get(...)` raise `AttributeError`, which the `except` clause does not
catch; likewise a present non-dict `content` field when `status_code` is
200 (the `and` short-circuits otherwise). -/
def validate_api_key (api_key : String) (tr : TransportResult) : ValidateOutcome × Nat :=
  if startsWithAAAI api_key then
    (.ok, 0)
  else
    match tr with
    | .exc => (.invalidKey, 1)
    | .resp _ .decodeFail => (.invalidKey, 1)
    | .resp _ (.json body) =>
      match body with
      | .obj fs =>
        if eqNum200 (dictGetD fs "status_code" .null) then
          match dictGetD fs "content" (.obj []) with
          | .obj cfs =>
            if truthy (dictGetD cfs "valid" .null) then (.ok, 1) else (.invalidKey, 1)
          | _ => (.attrError, 1)
        else (.invalidKey, 1)
      | _ => (.attrError, 1)

/-- Python's `str.rstrip("/")`: remove the longest run of trailing `/`
characters. -/
def pyRstripSlash (cs : List Char) : List Char :=
  ((cs.reverse).dropWhile (fun c => c == '/')).reverse

/-- `base_url.rstrip("/")` as performed in `WaveFlowStudio.__init__`. -/
def trimBase (base : String) : String :=
  String.mk (pyRstripSlash base.data)

/-- The gateway state: credential, normalised base address, and the current
session identifier (`self.workflow_id`, `None` after construction). -/
structure Studio where
  api_key : String
  base_url : String
  workflow_id : JSON
deriving Repr

/-- How `WaveFlowStudio.__init__` can finish. -/
inductive InitResult where
  | ok : Studio → InitResult
  | invalidKey : InitResult
  | attrError : InitResult
deriving Repr

/-- `WaveFlowStudio.__init__`: store the key, strip trailing slashes from
the base URL, run `_validate_api_key` (whose one optional GET is described
by `tr`), then set `workflow_id` to `None`.  Returns the constructed
gateway or the escaping exception, with the number of GETs issued. -/
def initStudio (api_key base_url : String) (tr : TransportResult) : InitResult × Nat :=
  match validate_api_key api_key tr with
  | (.ok, n) => (.ok ⟨api_key, trimBase base_url, .null⟩, n)
  | (.invalidKey, n) => (.invalidKey, n)
  | (.attrError, n) => (.attrError, n)

/-- The URLs the client builds, e.g. `f"{self.base_url}/user"` or
`f"{self.base_url}/workflow-config"`: the stored (already-stripped) base
followed by a slash and the path suffix. -/
def endpointUrl (st : Studio) (suffix : String) : String :=
  st.base_url ++ "/" ++ suffix

/-- The ways `WaveFlowStudio._handle_response` can finish. -/
inductive HandleResult where
  | ret : JSON → HandleResult
  | httpError : Nat → HandleResult
  | apiError : Nat → JSON → HandleResult
  | attrError : HandleResult
deriving Repr

/-- The mapping `_handle_response` returns for an undecodable body whose
status does not make `raise_for_status` raise. -/
def unknownServerBody : JSON :=
  .obj [("status", .str "error"), ("message", .str "Unknown server error")]

/-- `WaveFlowStudio._handle_response`.  A body that does not decode leads to
`response.raise_for_status()` (HTTPError on 4xx/5xx, else the fixed mapping
is returned).  Otherwise, `response.ok` (no 4xx/5xx status) returns the
decoded body unchanged, and a failing status raises an `Exception` carrying
the status code and a message chosen by `data.get("detail",
data.get("error", data.get("message", "Unknown API error")))`; when the
decoded body is not a dict, that `data.get` raises `AttributeError`. -/
def handle_response (status : Nat) (body : RespBody) : HandleResult :=
  match body with
  | .decodeFail =>
    if raisesForStatus status then .httpError status else .ret unknownServerBody
  | .json data =>
    if raisesForStatus status then
      match data with
      | .obj fs =>
        .apiError status
          (dictGetD fs "detail"
            (dictGetD fs "error" (dictGetD fs "message" (.str "Unknown API error"))))
      | _ => .attrError
    else .ret data

/-- `WaveFlowStudio.chat`.  Returns the mapping the method returns together
with the number of HTTP calls performed.  A falsy `self.workflow_id` is
rejected before any request; afterwards every exception (transport failure,
decode failure, `AttributeError` from `data.get` on a non-dict body) is
caught by `except Exception` and turned into an error mapping.  Exception
messages interpolate `str(e)`, abbreviated here as fixed markers. -/
def chat (st : Studio) (_query : String) (tr : TransportResult) : JSON × Nat :=
  if !truthy st.workflow_id then
    (.obj [("error", .str "Workflow not created. Call create_workflow first.")], 0)
  else
    match tr with
    | .exc => (.obj [("error", .str "<RequestException>")], 1)
    | .resp _ .decodeFail => (.obj [("error", .str "<JSONDecodeError>")], 1)
    | .resp _ (.json (.obj fs)) =>
      (.obj [("answer", dictGetD fs "final_answer" .null),
             ("conversation", dictGetD fs "conversation" .null),
             ("citation", dictGetD fs "citation" .null)], 1)
    | .resp _ (.json _) => (.obj [("error", .str "<AttributeError>")], 1)

/-- `session_id or self.workflow_id` where `session_id : Optional[str]`:
the argument when it is a truthy (non-empty) string, else the stored
value. -/
def resolveSid (session_id : Option String) (stored : JSON) : JSON :=
  match session_id with
  | some s => if s == "" then stored else .str s
  | none => stored

/-- What `if "session_id" in data: self.workflow_id = data["session_id"]`
does for each shape of the decoded body: adopt the value when `data` is a
dict with the key; fall through when the membership test is false; raise
`TypeError` when `data` is a list or string whose membership test succeeds
(string indexing then fails) or a scalar (`in` is not defined on it). -/
inductive AdoptStep where
  | adopt : JSON → AdoptStep
  | keep : AdoptStep
  | typeError : AdoptStep
deriving Repr

/-- The adoption step of `save_workflow` and `run_workflow` on a decoded
body.  `"session_id" in data` is key membership for a dict, element
equality for a list, substring test for a string, and a `TypeError` for any
other shape; `data["session_id"]` is a `TypeError` on lists and strings. -/
def sessionAdoptStep (data : JSON) : AdoptStep :=
  match data with
  | .obj fs =>
    match dictGet fs "session_id" with
    | some v => .adopt v
    | none => .keep
  | .arr xs =>
    if xs.any (fun j => match j with | .str s => s == "session_id" | _ => false)
    then .typeError else .keep
  | .str s =>
    if (s.splitOn "session_id").length > 1 then .typeError else .keep
  | _ => .typeError

/-- `WaveFlowStudio.save_workflow` (the parts visible to the state and the
returned mapping; the flowname/description payload does not influence
either).  Resolves the session id, rejects a falsy one before any request,
posts once, adopts `data["session_id"]` when present, and converts every
exception into an error mapping (messages interpolating `str(e)` are
abbreviated as markers). -/
def save_workflow (st : Studio) (session_id : Option String) (tr : TransportResult) :
    JSON × Studio :=
  let sid := resolveSid session_id st.workflow_id
  if !truthy sid then
    (.obj [("error", .str "No session_id found. Please create or run a workflow first.")], st)
  else
    match tr with
    | .exc => (.obj [("error", .str "Request failed: <RequestException>")], st)
    | .resp _ .decodeFail => (.obj [("error", .str "Request failed: <JSONDecodeError>")], st)
    | .resp _ (.json data) =>
      match sessionAdoptStep data with
      | .adopt v => (data, { st with workflow_id := v })
      | .keep => (data, st)
      | .typeError => (.obj [("error", .str "<TypeError>")], st)

/-- `WaveFlowStudio.run_workflow`: identical control flow to
`save_workflow` up to the payload and the wording of the early-return
error. -/
def run_workflow (st : Studio) (session_id : Option String) (tr : TransportResult) :
    JSON × Studio :=
  let sid := resolveSid session_id st.workflow_id
  if !truthy sid then
    (.obj [("error", .str "No session_id found. Create a workflow first.")], st)
  else
    match tr with
    | .exc => (.obj [("error", .str "Request failed: <RequestException>")], st)
    | .resp _ .decodeFail => (.obj [("error", .str "Request failed: <JSONDecodeError>")], st)
    | .resp _ (.json data) =>
      match sessionAdoptStep data with
      | .adopt v => (data, { st with workflow_id := v })
      | .keep => (data, st)
      | .typeError => (.obj [("error", .str "<TypeError>")], st)

/-- Python `self.workflow_id == session_id` where `session_id` is a `str`:
only a string value can compare equal. -/
def pyEqStr (j : JSON) (s : String) : Bool :=
  match j with
  | .str t => t == s
  | _ => false

/-- `WaveFlowStudio.delete_workflow`.  An empty session id is rejected
before any request.  On a decoded response with status 200 the stored
`workflow_id` is cleared when it equals the argument — this happens before
`data.get`, so it persists even when a non-dict body then raises
`AttributeError` (caught by `except Exception`).  All other paths leave the
state unchanged. -/
def delete_workflow (st : Studio) (session_id : String) (tr : TransportResult) :
    JSON × Studio :=
  if session_id == "" then
    (.obj [("error", .str "Session ID is required to delete a workflow.")], st)
  else
    match tr with
    | .exc => (.obj [("error", .str "Request failed: <RequestException>")], st)
    | .resp _ .decodeFail => (.obj [("error", .str "Request failed: <JSONDecodeError>")], st)
    | .resp status (.json data) =>
      if status == 200 then
        let st2 := if pyEqStr st.workflow_id session_id then
          { st with workflow_id := .null } else st
        match data with
        | .obj fs =>
          (.obj [("message", dictGetD fs "message" (.str "Workflow deleted successfully"))], st2)
        | _ => (.obj [("error", .str "<AttributeError>")], st2)
      else
        match data with
        | .obj fs =>
          (.obj [("error", dictGetD fs "error" (.str "Unknown error occurred"))], st)
        | _ => (.obj [("error", .str "<AttributeError>")], st)

/-- File-handle events performed by an upload method, in order. -/
inductive Ev where
  | openF : Ev
  | closeF : Ev
deriving Repr, DecidableEq

/-- How an upload method can finish. -/
inductive UploadOutcome where
  | ret : JSON → UploadOutcome
  | fileNotFound : UploadOutcome
deriving Repr

/-- `WaveFlowStudio.add_tool`: checks the path exists (else raises
`FileNotFoundError` before opening anything), opens the file, posts, and
closes the handle both in the `try` body on success and in the `except`
clause on failure; the subsequent `response.json()` happens after the
close and falls back to an error mapping when decoding fails.  The first
component is the ordered trace of file-handle events. -/
def add_tool (fileExists : Bool) (tr : TransportResult) : List Ev × UploadOutcome :=
  if !fileExists then ([], .fileNotFound)
  else
    match tr with
    | .exc =>
      ([.openF, .closeF], .ret (.obj [("error", .str "Request failed: <exception>")]))
    | .resp _ .decodeFail =>
      ([.openF, .closeF],
       .ret (.obj [("error", .str "Invalid response format"), ("raw_text", .str "<response.text>")]))
    | .resp _ (.json data) => ([.openF, .closeF], .ret data)

/-- `WaveFlowStudio.chat_pdf`: opens the file only when a path is given and
exists; the `finally` clause closes it on every path.  `raise_for_status`
errors and decode errors are `RequestException`s caught by the first
`except`.  The first component is the ordered trace of file-handle
events. -/
def chat_pdf (filePathGiven fileExists : Bool) (tr : TransportResult) : List Ev × JSON :=
  let hasFile := filePathGiven && fileExists
  let body :=
    match tr with
    | .exc => JSON.obj [("error", .str "Request failed: <RequestException>")]
    | .resp status rb =>
      if raisesForStatus status then
        JSON.obj [("error", .str "Request failed: <HTTPError>")]
      else
        match rb with
        | .decodeFail => JSON.obj [("error", .str "Request failed: <JSONDecodeError>")]
        | .json data => data
  (if hasFile then [.openF, .closeF] else [], body)

/-! ## Theorems -/

/-- C2: for every credential string starting with `"AAAI"`, constructing
`WaveFlowStudio` performs zero network calls and construction succeeds,
returning a usable gateway, whatever the transport would have answered. -/
theorem c2_trusted_prefix_skips_validation (api_key base_url : String)
    (tr : TransportResult) (h : startsWithAAAI api_key = true) :
    (initStudio api_key base_url tr).2 = 0 ∧
    (initStudio api_key base_url tr).1 =
      InitResult.ok ⟨api_key, trimBase base_url, JSON.null⟩ := by
  unfold initStudio validate_api_key
  rw [h]
  exact ⟨rfl, rfl⟩

theorem c2_witness :
    startsWithAAAI "AAAI-service-key" = true ∧
    (initStudio "AAAI-service-key" "http://h:5000" TransportResult.exc).2 = 0 ∧
    (initStudio "AAAI-service-key" "http://h:5000" TransportResult.exc).1 =
      InitResult.ok ⟨"AAAI-service-key", trimBase "http://h:5000", JSON.null⟩ := by
  refine ⟨rfl, ?_⟩
  exact c2_trusted_prefix_skips_validation "AAAI-service-key" "http://h:5000"
    TransportResult.exc rfl

/-- C9: after construction the stored `workflow_id` is `None`, and calling
`chat` on a gateway whose `workflow_id` is `None` returns the error mapping
`{"error": "Workflow not created. Call create_workflow first."}` without
performing any network call. -/
theorem c9_chat_requires_workflow :
    (∀ k b tr s, (initStudio k b tr).1 = InitResult.ok s → s.workflow_id = JSON.null) ∧
    (∀ st q tr, st.workflow_id = JSON.null →
      chat st q tr =
        (JSON.obj [("error", JSON.str "Workflow not created. Call create_workflow first.")], 0)) := by
  constructor
  · intro k b tr s h
    unfold initStudio at h
    rcases hv : validate_api_key k tr with ⟨o, n⟩
    rw [hv] at h
    cases o
    · injection h with h2
      rw [← h2]
    · exact InitResult.noConfusion h
    · exact InitResult.noConfusion h
  · intro st q tr h
    unfold chat
    rw [h]
    rfl

theorem c9_witness :
    (initStudio "AAAIk" "http://h" TransportResult.exc).1 =
      InitResult.ok ⟨"AAAIk", trimBase "http://h", JSON.null⟩ ∧
    (⟨"AAAIk", trimBase "http://h", JSON.null⟩ : Studio).workflow_id = JSON.null ∧
    chat ⟨"AAAIk", trimBase "http://h", JSON.null⟩ "hello" TransportResult.exc =
      (JSON.obj [("error", JSON.str "Workflow not created. Call create_workflow first.")], 0) := by
  refine ⟨rfl, ?_, ?_⟩
  · exact c9_chat_requires_workflow.1 "AAAIk" "http://h" TransportResult.exc _ rfl
  · exact c9_chat_requires_workflow.2 _ "hello" TransportResult.exc rfl

/-- C4: a response with a 2xx status whose body decodes as JSON is passed
through by `_handle_response` unchanged — the result is exactly the decoded
value and nothing is raised. -/
theorem c4_success_passthrough (status : Nat) (data : JSON)
    (h1 : 200 ≤ status) (h2 : status < 300) :
    handle_response status (RespBody.json data) = HandleResult.ret data := by
  have hr : raisesForStatus status = false := by
    simp only [raisesForStatus, Bool.and_eq_false_iff, decide_eq_false_iff_not, not_le, not_lt]
    omega
  simp [handle_response, hr]

theorem c4_witness :
    handle_response 200 (RespBody.json (JSON.obj [("models", JSON.arr [JSON.str "gpt-4"])])) =
      HandleResult.ret (JSON.obj [("models", JSON.arr [JSON.str "gpt-4"])]) :=
  c4_success_passthrough 200 _ (by decide) (by decide)

/-- C3 counterexample: a 302 response is non-2xx, yet `response.ok` is
true for it (`raise_for_status` only raises on 4xx/5xx), so
`_handle_response` returns the body `{"detail": "X"}` unchanged instead of
raising the error the claim describes. -/
theorem c3_counterexample :
    handle_response 302 (RespBody.json (JSON.obj [("detail", JSON.str "X")])) =
      HandleResult.ret (JSON.obj [("detail", JSON.str "X")]) ∧
    handle_response 302 (RespBody.json (JSON.obj [("detail", JSON.str "X")])) ≠
      HandleResult.apiError 302 (JSON.str "X") :=
  ⟨rfl, fun h => HandleResult.noConfusion h⟩

/-- C3 (amended): for every response with a 4xx/5xx status (the statuses on
which `response.ok` is false) whose body decodes to a JSON mapping, the
raised error carries the status code and a message chosen with precedence
`detail`, then `error`, then `message`, then the fallback string
`"Unknown API error"`. -/
theorem c3_error_message_precedence (status : Nat) (fs : List (String × JSON))
    (h1 : 400 ≤ status) (h2 : status < 600) :
    (∀ v, dictGet fs "detail" = some v →
      handle_response status (RespBody.json (JSON.obj fs)) = HandleResult.apiError status v) ∧
    (∀ v, dictGet fs "detail" = none → dictGet fs "error" = some v →
      handle_response status (RespBody.json (JSON.obj fs)) = HandleResult.apiError status v) ∧
    (∀ v, dictGet fs "detail" = none → dictGet fs "error" = none →
      dictGet fs "message" = some v →
      handle_response status (RespBody.json (JSON.obj fs)) = HandleResult.apiError status v) ∧
    (dictGet fs "detail" = none → dictGet fs "error" = none → dictGet fs "message" = none →
      handle_response status (RespBody.json (JSON.obj fs)) =
        HandleResult.apiError status (JSON.str "Unknown API error")) := by
  have hr : raisesForStatus status = true := by
    simp only [raisesForStatus, Bool.and_eq_true, decide_eq_true_eq]
    omega
  refine ⟨?_, ?_, ?_, ?_⟩
  · intro v hd
    simp [handle_response, hr, dictGetD, hd]
  · intro v hd he
    simp [handle_response, hr, dictGetD, hd, he]
  · intro v hd he hm
    simp [handle_response, hr, dictGetD, hd, he, hm]
  · intro hd he hm
    simp [handle_response, hr, dictGetD, hd, he, hm]

theorem c3_witness :
    400 ≤ 404 ∧ 404 < 600 ∧
    dictGet [("detail", JSON.str "X")] "detail" = some (JSON.str "X") ∧
    handle_response 404 (RespBody.json (JSON.obj [("detail", JSON.str "X")])) =
      HandleResult.apiError 404 (JSON.str "X") := by
  refine ⟨by decide, by decide, rfl, ?_⟩
  exact (c3_error_message_precedence 404 [("detail", JSON.str "X")]
    (by decide) (by decide)).1 (JSON.str "X") rfl

/-- C5 counterexample: a 301 response is non-2xx, yet on an undecodable
body `raise_for_status` does not raise (it only raises on 4xx/5xx), so
`_handle_response` returns the generic decode-failure mapping instead of
surfacing a transport error. -/
theorem c5_counterexample :
    handle_response 301 RespBody.decodeFail = HandleResult.ret unknownServerBody ∧
    handle_response 301 RespBody.decodeFail ≠ HandleResult.httpError 301 :=
  ⟨rfl, fun h => HandleResult.noConfusion h⟩

/-- C5 (amended): on a body that fails to decode, `_handle_response` raises
the `HTTPError` from `raise_for_status` exactly when the status is 4xx/5xx,
and on every other status returns the generic decode-failure mapping
`{"status": "error", "message": "Unknown server error"}` instead of
crashing. -/
theorem c5_decode_failure (status : Nat) :
    (400 ≤ status → status < 600 →
      handle_response status RespBody.decodeFail = HandleResult.httpError status) ∧
    (status < 400 ∨ 600 ≤ status →
      handle_response status RespBody.decodeFail = HandleResult.ret unknownServerBody) := by
  constructor
  · intro h1 h2
    have hr : raisesForStatus status = true := by
      simp only [raisesForStatus, Bool.and_eq_true, decide_eq_true_eq]
      omega
    simp [handle_response, hr]
  · intro h
    have hr : raisesForStatus status = false := by
      simp only [raisesForStatus, Bool.and_eq_false_iff, decide_eq_false_iff_not, not_le, not_lt]
      omega
    simp [handle_response, hr]

theorem c5_witness :
    (400 ≤ 404 ∧ 404 < 600 ∧
      handle_response 404 RespBody.decodeFail = HandleResult.httpError 404) ∧
    ((200 : Nat) < 400 ∧
      handle_response 200 RespBody.decodeFail = HandleResult.ret unknownServerBody) := by
  constructor
  · exact ⟨by decide, by decide, (c5_decode_failure 404).1 (by decide) (by decide)⟩
  · exact ⟨by decide, (c5_decode_failure 200).2 (Or.inl (by decide))⟩

/-- The success condition C1 states for the validation response: the
decoded body is a mapping whose `status_code` field equals 200 and whose
`content` field is a mapping carrying a truthy `valid` flag. -/
def validationSuccess : TransportResult → Bool
  | .resp _ (.json (.obj fs)) =>
    eqNum200 (dictGetD fs "status_code" .null) &&
      (match dictGetD fs "content" (.obj []) with
       | .obj cfs => truthy (dictGetD cfs "valid" .null)
       | _ => false)
  | _ => false

/-- The validation responses on which `_validate_api_key` escapes with an
`AttributeError` instead of `InvalidAPIKeyError`: a body decoding to a
non-mapping value, or a mapping whose `status_code` equals 200 but whose
present `content` field is not a mapping. -/
def validationAttrEscape : TransportResult → Bool
  | .resp _ (.json (.obj fs)) =>
    eqNum200 (dictGetD fs "status_code" .null) &&
      (match dictGetD fs "content" (.obj []) with
       | .obj _ => false
       | _ => true)
  | .resp _ (.json _) => true
  | _ => false

/-- C1 counterexample: for the non-`AAAI` credential `"jwt-token"` and a
response whose body decodes to the mapping
`{"status_code": 200, "content": null}`, `_validate_api_key` escapes with
an `AttributeError` (`None.get` does not exist) — construction neither
succeeds nor raises `InvalidAPIKeyError`, contradicting "never any other
exception". -/
theorem c1_counterexample :
    (validate_api_key "jwt-token"
      (TransportResult.resp 200
        (RespBody.json (JSON.obj [("status_code", JSON.num 200), ("content", JSON.null)])))).1 =
      ValidateOutcome.attrError ∧
    (validate_api_key "jwt-token"
      (TransportResult.resp 200
        (RespBody.json (JSON.obj [("status_code", JSON.num 200), ("content", JSON.null)])))).1 ≠
      ValidateOutcome.ok ∧
    (validate_api_key "jwt-token"
      (TransportResult.resp 200
        (RespBody.json (JSON.obj [("status_code", JSON.num 200), ("content", JSON.null)])))).1 ≠
      ValidateOutcome.invalidKey := by
  decide

/-- C1 (amended): for every credential not starting with `AAAI`,
construction issues exactly one GET; it succeeds exactly on a decoded
mapping with `status_code` 200 and a mapping `content` with truthy
`valid`; it raises `InvalidAPIKeyError` on every other outcome (malformed
body, transport failure, wrong status indicator, flag false or absent)
except that a body decoding to a non-mapping, or a 200 `status_code` with
a present non-mapping `content`, escapes with an `AttributeError`
instead. -/
theorem c1_validation_dichotomy (api_key : String) (tr : TransportResult)
    (h : startsWithAAAI api_key = false) :
    (validate_api_key api_key tr).2 = 1 ∧
    ((validate_api_key api_key tr).1 = ValidateOutcome.ok ↔ validationSuccess tr = true) ∧
    ((validate_api_key api_key tr).1 = ValidateOutcome.attrError ↔
      validationAttrEscape tr = true) ∧
    ((validate_api_key api_key tr).1 = ValidateOutcome.invalidKey ↔
      (validationSuccess tr = false ∧ validationAttrEscape tr = false)) := by
  unfold validate_api_key validationSuccess validationAttrEscape
  rw [h]
  simp only [Bool.false_eq_true, if_false]
  cases tr with
  | exc => simp
  | resp status rb =>
    cases rb with
    | decodeFail => simp
    | json body =>
      cases body with
      | obj fs =>
        cases hsc : eqNum200 (dictGetD fs "status_code" JSON.null) with
        | false => simp [hsc]
        | true =>
          cases hct : dictGetD fs "content" (JSON.obj []) <;> simp [hsc, hct]
          cases hv : truthy (dictGetD _ "valid" JSON.null) <;> simp [hv]
      | null => simp
      | bool b => simp
      | num n => simp
      | str s => simp
      | arr xs => simp

theorem c1_witness :
    startsWithAAAI "jwt-token" = false ∧
    (validate_api_key "jwt-token"
      (TransportResult.resp 200
        (RespBody.json (JSON.obj [("status_code", JSON.num 200),
          ("content", JSON.obj [("valid", JSON.bool true)])])))).1 = ValidateOutcome.ok ∧
    (validate_api_key "jwt-token" TransportResult.exc).1 = ValidateOutcome.invalidKey ∧
    (validate_api_key "jwt-token" TransportResult.exc).2 = 1 := by
  refine ⟨by decide, ?_, ?_, ?_⟩
  · exact ((c1_validation_dichotomy "jwt-token" _ (by decide)).2.1).2 (by decide)
  · exact ((c1_validation_dichotomy "jwt-token" TransportResult.exc (by decide)).2.2.2).2
      ⟨by decide, by decide⟩
  · exact (c1_validation_dichotomy "jwt-token" TransportResult.exc (by decide)).1

/-- The session-identifier field of the decoded response body, when the
call produced a response whose body decodes to a mapping that has one. -/
def sessionFieldOf : TransportResult → Option JSON
  | .resp _ (.json (.obj fs)) => dictGet fs "session_id"
  | _ => none

/-- C6: for `save_workflow` and `run_workflow`, when the request is made
and the decoded body is a mapping containing `session_id`, the stored
`workflow_id` afterwards equals that value (overwritten wholesale); when no
such field exists — including error responses, undecodable bodies, and
non-mapping bodies — and on the no-session early return, the stored value
is unchanged. -/
theorem c6_session_adoption (st : Studio) (sid : Option String) (tr : TransportResult) :
    (∀ v, truthy (resolveSid sid st.workflow_id) = true → sessionFieldOf tr = some v →
      (save_workflow st sid tr).2.workflow_id = v ∧
      (run_workflow st sid tr).2.workflow_id = v) ∧
    (sessionFieldOf tr = none →
      (save_workflow st sid tr).2.workflow_id = st.workflow_id ∧
      (run_workflow st sid tr).2.workflow_id = st.workflow_id) ∧
    (truthy (resolveSid sid st.workflow_id) = false →
      (save_workflow st sid tr).2.workflow_id = st.workflow_id ∧
      (run_workflow st sid tr).2.workflow_id = st.workflow_id) := by
  refine ⟨?_, ?_, ?_⟩
  · intro v ht hs
    cases tr with
    | exc => simp [sessionFieldOf] at hs
    | resp status rb =>
      cases rb with
      | decodeFail => simp [sessionFieldOf] at hs
      | json body =>
        cases body with
        | obj fs =>
          simp only [sessionFieldOf] at hs
          simp [save_workflow, run_workflow, ht, sessionAdoptStep, hs]
        | null => simp [sessionFieldOf] at hs
        | bool b => simp [sessionFieldOf] at hs
        | num n => simp [sessionFieldOf] at hs
        | str s => simp [sessionFieldOf] at hs
        | arr xs => simp [sessionFieldOf] at hs
  · intro hs
    cases htr : truthy (resolveSid sid st.workflow_id) with
    | false => simp [save_workflow, run_workflow, htr]
    | true =>
      cases tr with
      | exc => simp [save_workflow, run_workflow, htr]
      | resp status rb =>
        cases rb with
        | decodeFail => simp [save_workflow, run_workflow, htr]
        | json body =>
          cases body with
          | obj fs =>
            simp only [sessionFieldOf] at hs
            simp [save_workflow, run_workflow, htr, sessionAdoptStep, hs]
          | null => simp [save_workflow, run_workflow, htr, sessionAdoptStep]
          | bool b => simp [save_workflow, run_workflow, htr, sessionAdoptStep]
          | num n => simp [save_workflow, run_workflow, htr, sessionAdoptStep]
          | str s =>
            by_cases hc : (s.splitOn "session_id").length > 1 <;>
              simp [save_workflow, run_workflow, htr, sessionAdoptStep, hc]
          | arr xs =>
            by_cases hc :
              (xs.any (fun j => match j with | .str t => t == "session_id" | _ => false)) = true <;>
              simp [save_workflow, run_workflow, htr, sessionAdoptStep, hc]
  · intro htr
    simp [save_workflow, run_workflow, htr]

theorem c6_witness :
    truthy (resolveSid (some "sess-1") JSON.null) = true ∧
    sessionFieldOf
      (TransportResult.resp 200 (RespBody.json (JSON.obj [("session_id", JSON.str "srv-2")]))) =
      some (JSON.str "srv-2") ∧
    (save_workflow ⟨"AAAIk", "http://h", JSON.null⟩ (some "sess-1")
      (TransportResult.resp 200
        (RespBody.json (JSON.obj [("session_id", JSON.str "srv-2")])))).2.workflow_id =
      JSON.str "srv-2" ∧
    (run_workflow ⟨"AAAIk", "http://h", JSON.null⟩ (some "sess-1")
      (TransportResult.resp 200
        (RespBody.json (JSON.obj [("session_id", JSON.str "srv-2")])))).2.workflow_id =
      JSON.str "srv-2" := by
  have h := (c6_session_adoption ⟨"AAAIk", "http://h", JSON.null⟩ (some "sess-1")
    (TransportResult.resp 200
      (RespBody.json (JSON.obj [("session_id", JSON.str "srv-2")])))).1
    (JSON.str "srv-2") (by decide) rfl
  exact ⟨by decide, rfl, h.1, h.2⟩

/-- C7: both upload methods (`add_tool`, `chat_pdf`) close every file
handle they open, on every exit path — success, transport exception
mid-upload, bad status, undecodable body, and the no-file early paths: the
trace of file events always balances opens with closes. -/
theorem c7_upload_closes_file (fileExists filePathGiven : Bool) (tr : TransportResult) :
    (add_tool fileExists tr).1.count Ev.openF = (add_tool fileExists tr).1.count Ev.closeF ∧
    (chat_pdf filePathGiven fileExists tr).1.count Ev.openF =
      (chat_pdf filePathGiven fileExists tr).1.count Ev.closeF := by
  constructor
  · cases fileExists with
    | false => simp [add_tool]
    | true =>
      cases tr with
      | exc => simp [add_tool]
      | resp s rb => cases rb <;> simp [add_tool]
  · cases hf : filePathGiven && fileExists <;> simp [chat_pdf, hf]

/-- Modelled from the claim: "trimming exactly one trailing slash from the
base" — remove one `/` when the base ends in one, else leave it alone. -/
def trimOneSlash (s : String) : String :=
  match s.data.getLast? with
  | some '/' => String.mk s.data.dropLast
  | _ => s

/-- C8 counterexample: for the base `"http://h//"` the code trims *all*
trailing slashes (`rstrip("/")`), producing `"http://h/user"`, while the
claimed trim-exactly-one rule would produce `"http://h//user"` — which
moreover has a double slash, so the claimed mechanism and invariant are
inconsistent. -/
theorem c8_counterexample :
    (initStudio "AAAIk" "http://h//" TransportResult.exc).1 =
      InitResult.ok ⟨"AAAIk", trimBase "http://h//", JSON.null⟩ ∧
    endpointUrl ⟨"AAAIk", trimBase "http://h//", JSON.null⟩ "user" = "http://h/user" ∧
    trimOneSlash "http://h//" ++ "/" ++ "user" = "http://h//user" ∧
    ("http://h/user" : String) ≠ "http://h//user" := by
  exact ⟨rfl, by decide, by decide, by decide⟩

theorem head?_dropWhile_false {α} (p : α → Bool) (l : List α) (c : α)
    (h : (l.dropWhile p).head? = some c) : p c = false := by
  induction l with
  | nil => simp [List.dropWhile] at h
  | cons a as ih =>
    rw [List.dropWhile_cons] at h
    cases hpa : p a with
    | true =>
      rw [hpa] at h
      simp at h
      exact ih h
    | false =>
      rw [hpa] at h
      simp at h
      rw [← h]
      exact hpa

theorem pyRstripSlash_no_trailing (l : List Char) (c : Char)
    (h : (pyRstripSlash l).getLast? = some c) : c ≠ '/' := by
  unfold pyRstripSlash at h
  rw [List.getLast?_reverse] at h
  have hp := head?_dropWhile_false (fun x => x == '/') l.reverse c h
  simpa using hp

/-- C8 (amended): the base stored at construction has *all* trailing
slashes removed, so it never ends in `/`, and every URL the gateway builds
is that base, one `/`, then the suffix — exactly one slash at the join
point for every base string, whether it ends in zero, one, or several
slashes. -/
theorem c8_url_join (api_key base suffix : String) (tr : TransportResult) (st : Studio)
    (hok : (initStudio api_key base tr).1 = InitResult.ok st)
    (_hsuf : ∀ c, suffix.data.head? = some c → c ≠ '/') :
    st.base_url = trimBase base ∧
    (endpointUrl st suffix).data = (trimBase base).data ++ '/' :: suffix.data ∧
    (∀ c, (trimBase base).data.getLast? = some c → c ≠ '/') := by
  have hb : st.base_url = trimBase base := by
    unfold initStudio at hok
    rcases hv : validate_api_key api_key tr with ⟨o, n⟩
    rw [hv] at hok
    cases o
    · injection hok with h2
      rw [← h2]
    · exact InitResult.noConfusion hok
    · exact InitResult.noConfusion hok
  refine ⟨hb, ?_, ?_⟩
  · unfold endpointUrl
    rw [hb]
    simp [String.data_append]
  · intro c hc
    exact pyRstripSlash_no_trailing base.data c hc

theorem c8_witness :
    (endpointUrl ⟨"AAAIk", trimBase "http://h//", JSON.null⟩ "user").data =
      (trimBase "http://h//").data ++ '/' :: "user".data ∧
    ('h' : Char) ≠ '/' := by
  have hs : ∀ c, "user".data.head? = some c → c ≠ '/' := by
    intro c hc
    have h2 : "user".data.head? = some 'u' := rfl
    rw [h2] at hc
    injection hc with h3
    rw [← h3]
    decide
  have h := c8_url_join "AAAIk" "http://h//" "user" TransportResult.exc
    ⟨"AAAIk", trimBase "http://h//", JSON.null⟩ rfl hs
  exact ⟨h.2.1, h.2.2 'h' rfl⟩

/-- The condition under which `delete_workflow` actually clears the stored
session: a non-empty `session_id` argument, a response with status 200
whose body decodes as JSON, and a stored `workflow_id` equal to the
argument. -/
def deleteResets (st : Studio) (session_id : String) (tr : TransportResult) : Bool :=
  !(session_id == "") &&
    (match tr with
     | .resp status (.json _) => status == 200
     | _ => false) &&
    pyEqStr st.workflow_id session_id

/-- C10 counterexample: with stored session `"s"`, deleting `"s"` against a
200 response whose body does not decode leaves `workflow_id` untouched —
the decode error is caught before the status check — although the claim
(status 200 and matching id) requires a reset to `None`. -/
theorem c10_counterexample :
    (delete_workflow ⟨"AAAIk", "http://h", JSON.str "s"⟩ "s"
      (TransportResult.resp 200 RespBody.decodeFail)).2.workflow_id = JSON.str "s" ∧
    (delete_workflow ⟨"AAAIk", "http://h", JSON.str "s"⟩ "s"
      (TransportResult.resp 200 RespBody.decodeFail)).2.workflow_id ≠ JSON.null :=
  ⟨rfl, fun h => JSON.noConfusion h⟩

/-- C10 (amended): `delete_workflow` resets the stored `workflow_id` to
`None` exactly when the `session_id` argument is non-empty, the response
has status 200 with a body that decodes as JSON, and the stored value
equals the argument; in every other outcome the whole gateway state is
unchanged. -/
theorem c10_delete_reset (st : Studio) (session_id : String) (tr : TransportResult) :
    (deleteResets st session_id tr = true →
      (delete_workflow st session_id tr).2.workflow_id = JSON.null) ∧
    (deleteResets st session_id tr = false →
      (delete_workflow st session_id tr).2 = st) := by
  constructor
  · intro h
    unfold deleteResets at h
    simp only [Bool.and_eq_true, Bool.not_eq_eq_eq_not, Bool.not_true] at h
    obtain ⟨⟨h1, h2⟩, h3⟩ := h
    cases tr with
    | exc => simp at h2
    | resp status rb =>
      cases rb with
      | decodeFail => simp at h2
      | json data =>
        simp only [Nat.beq_eq_true_eq] at h2
        unfold delete_workflow
        rw [h1]
        subst h2
        cases data <;> simp [h3]
  · intro h
    cases hse : session_id == "" with
    | true => simp [delete_workflow, hse]
    | false =>
      cases tr with
      | exc => simp [delete_workflow, hse]
      | resp status rb =>
        cases rb with
        | decodeFail => simp [delete_workflow, hse]
        | json data =>
          unfold deleteResets at h
          rw [hse] at h
          simp only [Bool.not_false, Bool.true_and, Bool.and_eq_false_iff] at h
          cases hst : status == 200 with
          | false => cases data <;> simp [delete_workflow, hse, hst]
          | true =>
            have hp : pyEqStr st.workflow_id session_id = false := by
              rcases h with h | h
              · rw [hst] at h
                exact absurd h (by simp)
              · exact h
            cases data <;> simp [delete_workflow, hse, hst, hp]

theorem c10_witness :
    (deleteResets ⟨"AAAIk", "http://h", JSON.str "s"⟩ "s"
      (TransportResult.resp 200 (RespBody.json (JSON.obj []))) = true ∧
    (delete_workflow ⟨"AAAIk", "http://h", JSON.str "s"⟩ "s"
      (TransportResult.resp 200 (RespBody.json (JSON.obj [])))).2.workflow_id = JSON.null) ∧
    (deleteResets ⟨"AAAIk", "http://h", JSON.str "s"⟩ "other"
      (TransportResult.resp 200 (RespBody.json (JSON.obj []))) = false ∧
    (delete_workflow ⟨"AAAIk", "http://h", JSON.str "s"⟩ "other"
      (TransportResult.resp 200 (RespBody.json (JSON.obj [])))).2 =
      ⟨"AAAIk", "http://h", JSON.str "s"⟩) := by
  constructor
  · exact ⟨by decide,
      (c10_delete_reset ⟨"AAAIk", "http://h", JSON.str "s"⟩ "s"
        (TransportResult.resp 200 (RespBody.json (JSON.obj [])))).1 (by decide)⟩
  · exact ⟨by decide,
      (c10_delete_reset ⟨"AAAIk", "http://h", JSON.str "s"⟩ "other"
        (TransportResult.resp 200 (RespBody.json (JSON.obj [])))).2 (by decide)⟩

end WaveFlow
